import Mathlib

/-!
# Verification of the 0g-tapp trusted application platform core

This file is a shallow embedding, in Lean 4, of the pure core of the
`0g-tapp` service (a TEE-hosted platform that deploys docker-compose
bundles, measures them, and gates per-application key retrieval), together
with theorems settling a list of claims made by the natural-language
specification of the repository.

Embedding conventions:
* Rust byte slices / `Vec<u8>` are `List Nat` (each element a byte value);
  machine integers `i64` are `Int`; `u64`/`u32` words are `Nat` reduced
  modulo `2^64`/`2^32` where overflow matters.
* `HashMap` fields are association lists `List (key × value)`; insertion of
  a key that is known to be absent is modelled by consing.
* Fallible Rust functions returning `Result` are embedded as `Except`.
* External effects (the attestation driver, the docker daemon, the YAML
  normalizer, OS randomness, keccak/secp256k1 library calls) are passed in
  as explicit function or result parameters of the embedded functions.
* All definitions are executable and structurally recursive so the kernel
  can evaluate them on concrete inputs.

Source files embedded: `src/utils.rs`, `src/boot/measurement.rs`,
`src/boot/task_manager.rs`, `src/boot/manager.rs`, `src/boot/mod.rs`,
`src/nonce_manager.rs`, `src/app_key/mod.rs`, `src/error.rs`,
`src/lib.rs`.
-/

/-! ## SHA-2 (embedding of the `sha2` crate functions used by `src/utils.rs`)

`utils::sha256_hex` / `utils::sha384_hex` hash a byte slice and hex-encode
the digest in lowercase.  The implementation below is FIPS 180-4 SHA-256
and SHA-384 over byte lists, with the round constants and initial values
derived from the prime square/cube roots exactly as the standard defines
them; the theorems `sha256_hex_hello_world` (the digest asserted by the
repository's own unit test `test_sha256_hex`) and `sha384_hex_abc` (the
standard "abc" vector) pin the implementation down. -/

def M32 : Nat := 4294967296

def M64 : Nat := 18446744073709551616

def add32 (a b : Nat) : Nat := (a + b) % M32

def rotr32 (x n : Nat) : Nat := ((x >>> n) ||| (x <<< (32 - n))) % M32

def not32 (x : Nat) : Nat := x ^^^ (M32 - 1)

def add64 (a b : Nat) : Nat := (a + b) % M64

def rotr64 (x n : Nat) : Nat := ((x >>> n) ||| (x <<< (64 - n))) % M64

def not64 (x : Nat) : Nat := x ^^^ (M64 - 1)

/-- The first 80 primes; FIPS 180-4 obtains every SHA-2 round constant and
initial value from the fractional parts of their square or cube roots. -/
def shaPrimes : List Nat :=
  [2, 3, 5, 7, 11, 13, 17, 19, 23, 29, 31, 37, 41, 43, 47, 53, 59, 61, 67, 71,
   73, 79, 83, 89, 97, 101, 103, 107, 109, 113, 127, 131, 137, 139, 149, 151,
   157, 163, 167, 173, 179, 181, 191, 193, 197, 199, 211, 223, 227, 229, 233,
   239, 241, 251, 257, 263, 269, 271, 277, 281, 283, 293, 307, 311, 313, 317,
   331, 337, 347, 349, 353, 359, 367, 373, 379, 383, 389, 397, 401, 409]

/-- Binary search for the largest `m` with `f m ≤ n` on the interval
`[lo, hi)`; the fuel (256 everywhere below) strictly exceeds the number of
halvings of any interval used, so the search always ends at the base
condition. -/
def rootBelowGo (f : Nat → Nat) (n : Nat) : Nat → Nat → Nat → Nat
  | 0, lo, _ => lo
  | fuel + 1, lo, hi =>
    if hi ≤ lo + 1 then lo
    else
      let mid := (lo + hi) / 2
      if f mid ≤ n then rootBelowGo f n fuel mid hi else rootBelowGo f n fuel lo mid

/-- Integer square root (largest `m` with `m * m ≤ n`). -/
def isqrtBin (n : Nat) : Nat := rootBelowGo (fun m => m * m) n 256 0 (n + 1)

/-- Integer cube root (largest `m` with `m * m * m ≤ n`). -/
def icbrtBin (n : Nat) : Nat := rootBelowGo (fun m => m * m * m) n 256 0 (n + 1)

/-- The first `w` bits of the fractional part of the square root of `p`. -/
def fracSqrtBits (w p : Nat) : Nat := isqrtBin (p <<< (2 * w)) % (2 ^ w)

/-- The first `w` bits of the fractional part of the cube root of `p`. -/
def fracCbrtBits (w p : Nat) : Nat := icbrtBin (p <<< (3 * w)) % (2 ^ w)

/-- The 64 SHA-256 round constants (FIPS 180-4 §4.2.2). -/
def sha256K : List Nat := (shaPrimes.take 64).map (fracCbrtBits 32)

/-- The 80 SHA-512 round constants (FIPS 180-4 §4.2.3). -/
def sha512K : List Nat := shaPrimes.map (fracCbrtBits 64)

/-- Big-endian byte encoding of a natural number in `k` bytes. -/
def beBytes (n : Nat) (k : Nat) : List Nat :=
  (List.range k).map (fun i => (n >>> ((k - 1 - i) * 8)) % 256)

/-- Group a byte list into big-endian words of `w` bytes each (fuel-driven
so that the recursion is structural and kernel-reducible). -/
def toWordsGo (w : Nat) : Nat → List Nat → List Nat
  | 0, _ => []
  | _ + 1, [] => []
  | fuel + 1, l => (l.take w).foldl (fun acc b => acc * 256 + b) 0 :: toWordsGo w fuel (l.drop w)

def toWords (w : Nat) (l : List Nat) : List Nat := toWordsGo w (l.length + 1) l

/-- SHA-2 message padding: append `0x80`, zero bytes, then the bit length
in `lenBytes` big-endian bytes, reaching a multiple of `blockLen`. -/
def shaPad (blockLen lenBytes : Nat) (msg : List Nat) : List Nat :=
  let len := msg.length
  let zeros := (blockLen - (len + 1 + lenBytes) % blockLen) % blockLen
  msg ++ 128 :: List.replicate zeros 0 ++ beBytes (len * 8) lenBytes

def blocksGo (w : Nat) : Nat → List Nat → List (List Nat)
  | 0, _ => []
  | _ + 1, [] => []
  | fuel + 1, l => l.take w :: blocksGo w fuel (l.drop w)

def toBlocks (w : Nat) (l : List Nat) : List (List Nat) := blocksGo w (l.length + 1) l

def ssig0x256 (x : Nat) : Nat := rotr32 x 7 ^^^ rotr32 x 18 ^^^ (x >>> 3)

def ssig1x256 (x : Nat) : Nat := rotr32 x 17 ^^^ rotr32 x 19 ^^^ (x >>> 10)

def bsig0x256 (x : Nat) : Nat := rotr32 x 2 ^^^ rotr32 x 13 ^^^ rotr32 x 22

def bsig1x256 (x : Nat) : Nat := rotr32 x 6 ^^^ rotr32 x 11 ^^^ rotr32 x 25

def ssig0x512 (x : Nat) : Nat := rotr64 x 1 ^^^ rotr64 x 8 ^^^ (x >>> 7)

def ssig1x512 (x : Nat) : Nat := rotr64 x 19 ^^^ rotr64 x 61 ^^^ (x >>> 6)

def bsig0x512 (x : Nat) : Nat := rotr64 x 28 ^^^ rotr64 x 34 ^^^ rotr64 x 39

def bsig1x512 (x : Nat) : Nat := rotr64 x 14 ^^^ rotr64 x 18 ^^^ rotr64 x 41

/-- Extend the 16 message words to the full 64-word SHA-256 schedule;
`rws` holds the words produced so far in reverse order. -/
def scheduleGo256 : Nat → List Nat → List Nat
  | 0, rws => rws
  | n + 1, rws =>
    scheduleGo256 n
      (add32 (add32 (ssig1x256 (rws.getD 1 0)) (rws.getD 6 0))
        (add32 (ssig0x256 (rws.getD 14 0)) (rws.getD 15 0)) :: rws)

def schedule256 (block : List Nat) : List Nat := (scheduleGo256 48 block.reverse).reverse

/-- Extend the 16 message words to the full 80-word SHA-512 schedule. -/
def scheduleGo512 : Nat → List Nat → List Nat
  | 0, rws => rws
  | n + 1, rws =>
    scheduleGo512 n
      (add64 (add64 (ssig1x512 (rws.getD 1 0)) (rws.getD 6 0))
        (add64 (ssig0x512 (rws.getD 14 0)) (rws.getD 15 0)) :: rws)

def schedule512 (block : List Nat) : List Nat := (scheduleGo512 64 block.reverse).reverse

abbrev ShaState := Nat × Nat × Nat × Nat × Nat × Nat × Nat × Nat

def rounds256 : List Nat → List Nat → ShaState → ShaState
  | [], _, st => st
  | _, [], st => st
  | k :: ks, w :: ws, (a, b, c, d, e, f, g, h) =>
    let t1 := add32 (add32 (add32 h (bsig1x256 e)) (add32 ((e &&& f) ^^^ (not32 e &&& g)) k)) w
    let t2 := add32 (bsig0x256 a) ((a &&& b) ^^^ (a &&& c) ^^^ (b &&& c))
    rounds256 ks ws (add32 t1 t2, a, b, c, add32 d t1, e, f, g)

def rounds512 : List Nat → List Nat → ShaState → ShaState
  | [], _, st => st
  | _, [], st => st
  | k :: ks, w :: ws, (a, b, c, d, e, f, g, h) =>
    let t1 := add64 (add64 (add64 h (bsig1x512 e)) (add64 ((e &&& f) ^^^ (not64 e &&& g)) k)) w
    let t2 := add64 (bsig0x512 a) ((a &&& b) ^^^ (a &&& c) ^^^ (b &&& c))
    rounds512 ks ws (add64 t1 t2, a, b, c, add64 d t1, e, f, g)

def compress256 (st : ShaState) (block : List Nat) : ShaState :=
  let (a, b, c, d, e, f, g, h) := st
  let (a1, b1, c1, d1, e1, f1, g1, h1) := rounds256 sha256K (schedule256 (toWords 4 block)) st
  (add32 a a1, add32 b b1, add32 c c1, add32 d d1, add32 e e1, add32 f f1, add32 g g1, add32 h h1)

def compress512 (st : ShaState) (block : List Nat) : ShaState :=
  let (a, b, c, d, e, f, g, h) := st
  let (a1, b1, c1, d1, e1, f1, g1, h1) := rounds512 sha512K (schedule512 (toWords 8 block)) st
  (add64 a a1, add64 b b1, add64 c c1, add64 d d1, add64 e e1, add64 f f1, add64 g g1, add64 h h1)

def foldBlocks (f : ShaState → List Nat → ShaState) (st : ShaState) : List (List Nat) → ShaState
  | [] => st
  | b :: bs => foldBlocks f (f st b) bs

def sha256IV : ShaState :=
  (fracSqrtBits 32 2, fracSqrtBits 32 3, fracSqrtBits 32 5, fracSqrtBits 32 7,
   fracSqrtBits 32 11, fracSqrtBits 32 13, fracSqrtBits 32 17, fracSqrtBits 32 19)

def sha384IV : ShaState :=
  (fracSqrtBits 64 23, fracSqrtBits 64 29, fracSqrtBits 64 31, fracSqrtBits 64 37,
   fracSqrtBits 64 41, fracSqrtBits 64 43, fracSqrtBits 64 47, fracSqrtBits 64 53)

def stateBytes (wordBytes : Nat) (st : ShaState) : List Nat :=
  let (a, b, c, d, e, f, g, h) := st
  beBytes a wordBytes ++ beBytes b wordBytes ++ beBytes c wordBytes ++ beBytes d wordBytes ++
    beBytes e wordBytes ++ beBytes f wordBytes ++ beBytes g wordBytes ++ beBytes h wordBytes

/-- `utils::sha256`: SHA-256 digest of a byte list (32 bytes). -/
def sha256 (data : List Nat) : List Nat :=
  stateBytes 4 (foldBlocks compress256 sha256IV (toBlocks 64 (shaPad 64 8 data)))

/-- `utils::sha384`: SHA-384 digest of a byte list (48 bytes): SHA-512 core
with the SHA-384 initial values, truncated to 48 bytes. -/
def sha384 (data : List Nat) : List Nat :=
  (stateBytes 8 (foldBlocks compress512 sha384IV (toBlocks 128 (shaPad 128 16 data)))).take 48

def hexDigitChar (n : Nat) : Char :=
  if n < 10 then Char.ofNat (48 + n) else Char.ofNat (87 + n)

/-- `hex::encode`: lowercase hex encoding of a byte list. -/
def hexEncode (bytes : List Nat) : String :=
  String.mk (bytes.foldr (fun b acc => hexDigitChar (b / 16 % 16) :: hexDigitChar (b % 16) :: acc) [])

def hexDigitVal (c : Char) : Option Nat :=
  if 48 ≤ c.toNat ∧ c.toNat ≤ 57 then some (c.toNat - 48)
  else if 97 ≤ c.toNat ∧ c.toNat ≤ 102 then some (c.toNat - 87)
  else if 65 ≤ c.toNat ∧ c.toNat ≤ 70 then some (c.toNat - 55)
  else none

def hexDecodeGo : List Char → Option (List Nat)
  | [] => some []
  | [_] => none
  | hi :: lo :: rest =>
    match hexDigitVal hi, hexDigitVal lo, hexDecodeGo rest with
    | some h, some l, some bs => some ((h * 16 + l) :: bs)
    | _, _, _ => none

/-- `hex::decode`: decode a hex string into bytes (fails on odd length or
non-hex characters). -/
def hexDecode (s : String) : Option (List Nat) := hexDecodeGo s.toList

/-- UTF-8 bytes of a string as used by Rust's `str::as_bytes`.  The
embedded service only hashes and concatenates ASCII data (hex digests,
identifiers), for which code points and UTF-8 bytes coincide. -/
def strBytes (s : String) : List Nat := s.toList.map Char.toNat

/-- `String::from_utf8_lossy` on the byte contents; exact for ASCII data,
which is the only place the audit string is inspected by the claims. -/
def utf8Lossy (bytes : List Nat) : String := String.mk (bytes.map Char.ofNat)

/-- `utils::sha256_hex`. -/
def sha256_hex (data : List Nat) : String := hexEncode (sha256 data)

/-- `utils::sha384_hex`. -/
def sha384_hex (data : List Nat) : String := hexEncode (sha384 data)

/-! ## Error taxonomy (`src/error.rs`)

Only the variants reachable from the embedded operations are modelled.
`toMessage` mirrors the `thiserror` display format strings. -/

inductive DockerError where
  | connectionFailed
  | invalidComposeContent (reason : String)
  | containerOperationFailed (operation reason : String)
  | volumeMeasurementFailed (path : String)
  | serviceNotFound (service_name : String)
deriving DecidableEq

inductive TappError where
  | docker (e : DockerError)
  | invalidParameter (field reason : String)
  | serialization (msg : String)
  | internal (msg : String)
deriving DecidableEq

def DockerError.toMessage : DockerError → String
  | .connectionFailed => "Docker daemon connection failed"
  | .invalidComposeContent reason => "Invalid compose content: " ++ reason
  | .containerOperationFailed operation reason =>
      "Container operation failed: " ++ operation ++ " - " ++ reason
  | .volumeMeasurementFailed path => "Volume measurement failed: " ++ path
  | .serviceNotFound service_name => "Service not found: " ++ service_name

def TappError.toMessage : TappError → String
  | .docker e => "Docker error: " ++ e.toMessage
  | .invalidParameter field reason => "Invalid parameter: " ++ field ++ " - " ++ reason
  | .serialization msg => "Serialization error: " ++ msg
  | .internal msg => "Internal error: " ++ msg

/-- The subset of `tonic::Status` codes produced by the embedded handlers. -/
inductive GrpcStatus where
  | permissionDenied (msg : String)
  | notFound (msg : String)
  | invalidArgument (msg : String)
  | internal (msg : String)
deriving DecidableEq

instance {ε α : Type} [DecidableEq ε] [DecidableEq α] : DecidableEq (Except ε α) := fun a b =>
  match a, b with
  | .ok x, .ok y =>
    if h : x = y then .isTrue (by rw [h]) else .isFalse (fun hc => h (by injection hc))
  | .error x, .error y =>
    if h : x = y then .isTrue (by rw [h]) else .isFalse (fun hc => h (by injection hc))
  | .ok _, .error _ => .isFalse (fun hc => Except.noConfusion hc)
  | .error _, .ok _ => .isFalse (fun hc => Except.noConfusion hc)

/-! ## Measurement pipeline (`src/boot/measurement.rs`) -/

/-- `measurement::HashAlgorithm`; the default is SHA-384. -/
inductive HashAlgorithm where
  | sha256Alg
  | sha384Alg
deriving DecidableEq

def HashAlgorithm.hash : HashAlgorithm → List Nat → String
  | .sha256Alg, data => sha256_hex data
  | .sha384Alg, data => sha384_hex data

def HashAlgorithm.default : HashAlgorithm := .sha384Alg

/-- `manager::MountFile` (the mode has already been defaulted to "0644"
when empty by the caller in `boot/mod.rs`). -/
structure MountFile where
  source_path : String
  content : List Nat
  mode : String
deriving DecidableEq

/-- `measurement::AppMeasurement`. -/
structure AppMeasurement where
  app_id : String
  compose_hash : String
  volumes_hash : String
  deployer : String
  timestamp : Int
deriving DecidableEq

/-- Byte-lexicographic comparison of strings as `Ord for String` in Rust
(`a.source_path.cmp(&b.source_path)` compares UTF-8 bytes; on code-point
lists this is the same order). -/
def charsLe : List Char → List Char → Bool
  | [], _ => true
  | _ :: _, [] => false
  | a :: as, b :: bs => if a = b then charsLe as bs else decide (a < b)

def MountFile.pathLeR (a b : MountFile) : Prop :=
  charsLe a.source_path.toList b.source_path.toList = true

instance : DecidableRel MountFile.pathLeR := fun a b => by
  unfold MountFile.pathLeR; infer_instance

/-- One bottom-up level of `build_merkle_root`'s while-loop: combine
adjacent pairs by hex-string concatenation and rehash; an odd final
element is combined with itself. -/
def merkleStep (algo : HashAlgorithm) : List String → List String
  | a :: b :: rest => algo.hash (strBytes (a ++ b)) :: merkleStep algo rest
  | [a] => [algo.hash (strBytes (a ++ a))]
  | [] => []

/-- The while-loop of `build_merkle_root`; each step at least halves a
level of length ≥ 2, so `length` steps of fuel always suffice. -/
def merkleLoopGo (algo : HashAlgorithm) : Nat → List String → List String
  | 0, level => level
  | fuel + 1, level =>
    if level.length > 1 then merkleLoopGo algo fuel (merkleStep algo level) else level

/-- `ComposeMeasurement::build_merkle_root`.  The Rust function returns
`TappResult<String>` but no path constructs an error, so it is embedded as
a pure function. -/
def build_merkle_root (algo : HashAlgorithm) (leaf_hashes : List String) : String :=
  if leaf_hashes.isEmpty then algo.hash []
  else if leaf_hashes.length = 1 then leaf_hashes.headD ""
  else (merkleLoopGo algo leaf_hashes.length leaf_hashes).headD ""

/-- `ComposeMeasurement::calculate_mount_files_hash`.  The sort models
Rust's stable `sort_by` on `source_path` (insertion sort is stable and
sorted-by-the-same-key, hence extensionally identical); the separator is
the ASCII record separator `0x1E`.  The Rust signature is
`TappResult<(String, String)>` with no error path, embedded pure. -/
def calculate_mount_files_hash (algo : HashAlgorithm) (mount_files : List MountFile) :
    String × String :=
  if mount_files.isEmpty then (algo.hash [], "")
  else
    let sorted_files := List.insertionSort MountFile.pathLeR mount_files
    let leaf_hashes := sorted_files.map (fun file => algo.hash file.content)
    let root_hash := build_merkle_root algo leaf_hashes
    let combined_content := String.intercalate "\x1E"
      (sorted_files.map (fun file =>
        "--- FILE: " ++ file.source_path ++ " ---\n" ++ utf8Lossy file.content))
    (root_hash, combined_content)

/-- `ComposeMeasurement::calculate_compose_hash`, with the YAML→JSON
canonicalization (`normalize_compose_content`, which depends on the
`serde_yaml`/`serde_json` libraries) passed in as a parameter. -/
def calculate_compose_hash (algo : HashAlgorithm)
    (normalize : String → Except DockerError String) (compose_content : String) :
    Except TappError String :=
  match normalize compose_content with
  | .error e => .error (.docker e)
  | .ok normalized => .ok (algo.hash (strBytes normalized))

/-! ## Task machine (`src/boot/task_manager.rs`) -/

inductive TaskStatus where
  | pending
  | running
  | completed (app_id : String) (deployer : List Nat)
  | failed (error : String)
deriving DecidableEq

/-- `task_manager::Task` (the source name `Task` collides with Lean's
core `Task` type, so the record is named `TaskRecord` here). -/
structure TaskRecord where
  id : String
  status : TaskStatus
  created_at : Int
  updated_at : Int
deriving DecidableEq

/-- `TaskManager::update_task_status`: if the id is present the stored
status is overwritten (unconditionally) and `updated_at` refreshed; an
unknown id is a no-op.  The task table is the association list. -/
def update_task_status (tasks : List (String × TaskRecord)) (task_id : String)
    (status : TaskStatus) (now : Int) : List (String × TaskRecord) :=
  tasks.map (fun p =>
    if p.1 = task_id then (p.1, { p.2 with status := status, updated_at := now }) else p)

def mark_running (tasks : List (String × TaskRecord)) (task_id : String) (now : Int) :
    List (String × TaskRecord) :=
  update_task_status tasks task_id .running now

def mark_completed (tasks : List (String × TaskRecord)) (task_id : String)
    (app_id : String) (deployer : List Nat) (now : Int) : List (String × TaskRecord) :=
  update_task_status tasks task_id (.completed app_id deployer) now

def mark_failed (tasks : List (String × TaskRecord)) (task_id : String) (error : String)
    (now : Int) : List (String × TaskRecord) :=
  update_task_status tasks task_id (.failed error) now

/-! ## Deployment driver state (`src/boot/manager.rs`) -/

/-- `DockerComposeManager`: only the `app_containers` tracking map is
state; the docker handle is external. -/
structure DockerComposeManager where
  app_containers : List (String × List String)
deriving DecidableEq

/-- `DockerComposeManager::stop_compose`: looks up the tracked container
names for the app; an unknown `app_id` yields `DockerError::ServiceNotFound`.
Stopping the individual containers is an external docker effect (errors
there are logged and swallowed by the source); the app is then removed
from tracking. -/
def stop_compose (m : DockerComposeManager) (app_id : String) :
    Except TappError DockerComposeManager :=
  match m.app_containers.lookup app_id with
  | none => .error (.docker (.serviceNotFound app_id))
  | some _ => .ok ⟨m.app_containers.filter (fun p => p.1 != app_id)⟩

/-- `BootService::stop_app` forwards to `stop_compose` and returns `Ok(())`
on success; embedded returning the updated manager state. -/
def stop_app (m : DockerComposeManager) (app_id : String) :
    Except TappError DockerComposeManager :=
  stop_compose m app_id

/-- Recognizer for the error the spec claims `stop_app` returns for an
unknown app: `TappError::InvalidParameter` with `field = "app_id"`. -/
def isInvalidParamAppIdErr : Except TappError DockerComposeManager → Bool
  | .error (.invalidParameter "app_id" _) => true
  | _ => false

/-! ## Boot service (`src/boot/mod.rs`) -/

/-- `proto::MountFile` as it arrives on the wire (mode may be empty). -/
structure ProtoMountFile where
  source_path : String
  content : List Nat
  mode : String
deriving DecidableEq

/-- `proto::StartAppRequest`. -/
structure StartAppRequest where
  compose_content : String
  app_id : String
  mount_files : List ProtoMountFile
  deployer : List Nat
deriving DecidableEq

structure StartAppResponse where
  success : Bool
  message : String
  task_id : String
  timestamp : Int
deriving DecidableEq

/-- `utils::validate_app_id`: non-empty, at most 64 characters, all
alphanumeric or `-` or `_`. -/
def validate_app_id (app_id : String) : Bool :=
  if app_id.isEmpty || app_id.length > 64 then false
  else app_id.toList.all (fun c => c.isAlphanum || c = '-' || c = '_')

/-- `BootService::validate_request` (`src/boot/mod.rs` lines 312-342).
Note: the deployer length check in the source is `len() != 64`. -/
def validate_request (request : StartAppRequest) : Except TappError Unit :=
  if request.compose_content.isEmpty then
    .error (.docker (.invalidComposeContent "Compose content cannot be empty"))
  else if request.app_id.isEmpty then
    .error (.docker (.invalidComposeContent "App ID cannot be empty"))
  else if !(validate_app_id request.app_id) then
    .error (.docker (.invalidComposeContent ("Invalid app ID format: " ++ request.app_id)))
  else if request.deployer.length ≠ 64 then
    .error (.docker (.invalidComposeContent "Deployer must be 64 bytes"))
  else
    .ok ()

/-- Process-wide boot-service state: the four in-memory maps. -/
structure BootState where
  app_measurements : List (String × AppMeasurement)
  tasks : List (String × TaskRecord)
  app_compose_content : List (String × String)
  app_mount_files : List (String × String)
deriving DecidableEq

/-- `BootService::calculate_app_measurement`; the YAML normalizer is a
parameter, the mount-file hashing is the embedded pipeline, the deployer
is stored as `hex::encode` of the raw request bytes. -/
def calculate_app_measurement (normalize : String → Except DockerError String)
    (request : StartAppRequest) (mount_files : List MountFile) (app_id : String) (now : Int) :
    Except TappError (AppMeasurement × String × String) :=
  match calculate_compose_hash HashAlgorithm.default normalize request.compose_content with
  | .error e => .error e
  | .ok compose_hash =>
    let volumes := calculate_mount_files_hash HashAlgorithm.default mount_files
    .ok ({ app_id := app_id, compose_hash := compose_hash, volumes_hash := volumes.1,
           deployer := hexEncode request.deployer, timestamp := now },
         request.compose_content, volumes.2)

/-- `BootService::_start_app`, the background worker body: duplicate-app
check, measurement, storing compose text and audit content, deploying
(result passed in as `deploy_res`), recording the measurement, extending
the runtime measurement (result passed in as `extend_res`), and the final
task-status transition.  Any error marks the task `Failed` with the
error's display string. -/
def _start_app (normalize : String → Except DockerError String)
    (deploy_res extend_res : Except TappError Unit)
    (req : StartAppRequest) (task_id : String) (st : BootState) (now : Int) : BootState :=
  let app_id := req.app_id
  if (st.app_measurements.lookup app_id).isSome then
    let msg := TappError.toMessage
      (.invalidParameter "app_id" ("Application " ++ app_id ++ " already exists"))
    { st with tasks := mark_failed st.tasks task_id msg now }
  else
    let mount_files : List MountFile := req.mount_files.map (fun mf =>
      { source_path := mf.source_path, content := mf.content,
        mode := if mf.mode.isEmpty then "0644" else mf.mode })
    match calculate_app_measurement normalize req mount_files app_id now with
    | .error e => { st with tasks := mark_failed st.tasks task_id e.toMessage now }
    | .ok (measurement, compose_content, volumes_content) =>
      let st1 := { st with
        app_compose_content := (app_id, compose_content) :: st.app_compose_content }
      let st2 := { st1 with
        app_mount_files := (app_id, volumes_content) :: st1.app_mount_files }
      match deploy_res with
      | .error e => { st2 with tasks := mark_failed st2.tasks task_id e.toMessage now }
      | .ok _ =>
        let st3 := { st2 with
          app_measurements := (app_id, measurement) :: st2.app_measurements }
        match extend_res with
        | .error e => { st3 with tasks := mark_failed st3.tasks task_id e.toMessage now }
        | .ok _ =>
          { st3 with tasks := mark_completed st3.tasks task_id app_id req.deployer now }

/-- `BootService::start_app`, the public synchronous part: validate,
create the task (Pending), mark it Running, and return the task id; the
background worker `_start_app` is spawned afterwards. -/
def start_app (req : StartAppRequest) (st : BootState) (new_task_id : String) (now : Int) :
    Except TappError StartAppResponse × BootState :=
  match validate_request req with
  | .error e => (.error e, st)
  | .ok _ =>
    let task : TaskRecord :=
      { id := new_task_id, status := .pending, created_at := now, updated_at := now }
    let tasks0 := (new_task_id, task) :: st.tasks
    let tasks1 := mark_running tasks0 new_task_id now
    (.ok { success := true,
           message := "Task created successfully. Use task_id to check status.",
           task_id := new_task_id, timestamp := now },
     { st with tasks := tasks1 })

/-- `BootService::get_evidence` report-data preparation: empty means 64
zero bytes, more than 64 bytes is rejected with
`DockerError::InvalidComposeContent`, otherwise the data is resized
(right-padded with zeros) to 64 bytes. -/
def prepare_report_data (report_data : List Nat) : Except TappError (List Nat) :=
  if report_data.isEmpty then .ok (List.replicate 64 0)
  else if report_data.length > 64 then
    .error (.docker (.invalidComposeContent
      ("Report data must be at most 64 bytes, got " ++ toString report_data.length)))
  else .ok (report_data ++ List.replicate (64 - report_data.length) 0)

/-- `BootService::get_evidence` with the attestation driver's
`get_evidence` call passed in as a parameter; the produced evidence blob is
the driver's output on the prepared report data. -/
def get_evidence (aa_get_evidence : List Nat → List Nat) (report_data : List Nat) :
    Except TappError (List Nat) :=
  (prepare_report_data report_data).map aa_get_evidence

/-! ## Nonce ledger (`src/nonce_manager.rs`) -/

/-- `NonceManager` map state: nonce → expiry timestamp. -/
structure NonceState where
  used_nonces : List (String × Int)
deriving DecidableEq

def NonceState.contains (st : NonceState) (nonce : String) : Bool :=
  (st.used_nonces.lookup nonce).isSome

/-- `HashMap::insert`, used only after a `contains_key` check shows the
nonce absent. -/
def NonceState.insert (st : NonceState) (nonce : String) (expiry : Int) : NonceState :=
  ⟨(nonce, expiry) :: st.used_nonces⟩

/-- `NonceManager::verify_and_consume` with the current time as an
explicit parameter: timestamp-drift check, replay check, then record the
nonce with expiry `timestamp + validity_window`. -/
def verify_and_consume (validity_window : Int) (st : NonceState) (nonce : String)
    (timestamp now : Int) : Except String Unit × NonceState :=
  let time_diff : Int := (now - timestamp).natAbs
  if time_diff > validity_window then
    (.error ("Timestamp outside validity window. Diff: " ++ toString time_diff ++
      "s, Max: " ++ toString validity_window ++ "s"), st)
  else if st.contains nonce then
    (.error "Nonce already used (replay attack detected)", st)
  else
    (.ok (), st.insert nonce (timestamp + validity_window))

/-- `NonceManager::cleanup_expired_nonces` (the background sweeper):
retain entries with `expiry > now`. -/
def cleanup_expired_nonces (st : NonceState) (now : Int) : NonceState :=
  ⟨st.used_nonces.filter (fun p => p.2 > now)⟩

/-! ## Network-origin gate and privileged key retrieval (`src/lib.rs`) -/

/-- `std::net::IpAddr`: an IPv4 address as four octets or an IPv6 address
as eight 16-bit segments. -/
inductive IpAddr where
  | v4 (a b c d : Nat)
  | v6 (a b c d e f g h : Nat)
deriving DecidableEq

/-- `IpAddr::is_loopback`: IPv4 loopback is 127.0.0.0/8; IPv6 loopback is
exactly `::1`. -/
def IpAddr.is_loopback : IpAddr → Bool
  | .v4 a _ _ _ => a == 127
  | .v6 a b c d e f g h =>
      a == 0 && b == 0 && c == 0 && d == 0 && e == 0 && f == 0 && g == 0 && h == 1

/-- `TappServiceImpl::is_allowed_local_access` (`src/lib.rs` lines 43-65):
loopback, or IPv4 in the docker bridge ranges 172.17.0.0/16 through
172.31.0.0/16. -/
def is_allowed_local_access (ip : IpAddr) : Bool :=
  if ip.is_loopback then true
  else
    match ip with
    | .v4 a b _ _ =>
      if a == 172 && b == 17 then true
      else if a == 172 && (decide (18 ≤ b) && decide (b ≤ 31)) then true
      else false
    | .v6 _ _ _ _ _ _ _ _ => false

/-- The origin decision of `get_app_secret_key`: a request with no remote
socket address (e.g. a unix socket) is allowed. -/
def secret_key_origin_allowed (remote : Option IpAddr) : Bool :=
  match remote with
  | some ip => is_allowed_local_access ip
  | none => true

structure GetAppSecretKeyRequest where
  app_id : String
  nonce : String
  timestamp : Int
  signature : List Nat
deriving DecidableEq

structure GetAppSecretKeyResponse where
  success : Bool
  message : String
  private_key : List Nat
  public_key : List Nat
  eth_address : List Nat
deriving DecidableEq

/-- Little-endian `i64::to_le_bytes` of a timestamp (two's complement). -/
def i64LeBytes (t : Int) : List Nat :=
  let n := (t % (18446744073709551616 : Int)).toNat
  (List.range 8).map (fun i => (n >>> (i * 8)) % 256)

/-- `TappServiceImpl::get_app_secret_key` (`src/lib.rs` lines 239-393).
The triple gate in source order: network origin, nonce + timestamp,
deployer signature; then key retrieval.  External collaborators are
parameters: `verify_sig` is `app_key::verify_signature` (an `Err` there
maps to an internal status), `app_keys` bundles
`AppKeyService::get_app_key` / `get_private_key` (returning private key,
public key, eth address for the app). -/
def get_app_secret_key
    (measurements : List AppMeasurement)
    (verify_sig : List Nat → List Nat → List Nat → Except String Bool)
    (app_keys : String → Except GrpcStatus (List Nat × List Nat × List Nat))
    (validity_window : Int)
    (remote : Option IpAddr) (req : GetAppSecretKeyRequest) (st : NonceState) (now : Int) :
    Except GrpcStatus GetAppSecretKeyResponse × NonceState :=
  if !(secret_key_origin_allowed remote) then
    (.error (.permissionDenied
      "GetAppSecretKey can only be called from localhost or same-host Docker containers"), st)
  else
    match verify_and_consume validity_window st req.nonce req.timestamp now with
    | (.error e, st1) =>
      (.error (.permissionDenied ("Nonce verification failed: " ++ e)), st1)
    | (.ok _, st1) =>
      match measurements.find? (fun m => m.app_id == req.app_id) with
      | none => (.error (.notFound ("App " ++ req.app_id ++ " not found")), st1)
      | some m =>
        match hexDecode m.deployer with
        | none => (.error (.internal "Failed to decode deployer public key"), st1)
        | some deployer_pubkey =>
          let message := strBytes req.app_id ++ strBytes req.nonce ++ i64LeBytes req.timestamp
          match verify_sig deployer_pubkey message req.signature with
          | .error e => (.error (.internal ("Signature verification error: " ++ e)), st1)
          | .ok false =>
            (.error (.permissionDenied
              "Invalid deployer signature. Only the app deployer can access the private key."), st1)
          | .ok true =>
            match app_keys req.app_id with
            | .error e => (.error e, st1)
            | .ok (priv, pub, addr) =>
              (.ok { success := true, message := "Private key for app " ++ req.app_id,
                     private_key := priv, public_key := pub, eth_address := addr }, st1)

/-! ## Task-status RPC (`src/lib.rs` lines 152-178) -/

structure TaskResultProto where
  app_id : String
  deployer : List Nat
  error : String
deriving DecidableEq

structure GetTaskStatusResponse where
  success : Bool
  message : String
  task_id : String
  status : Int
  result : Option TaskResultProto
  created_at : Int
  updated_at : Int
deriving DecidableEq

/-- Modelled from the spec: the protobuf `TaskStatus` enum numbering comes
from the generated `tapp_service` proto module, which is not under `src/`;
the numbering of found tasks is irrelevant to the claims (the not-found
branch hard-codes 0 in the source). -/
def TaskStatus.protoCode : TaskStatus → Int
  | .pending => 0
  | .running => 1
  | .completed _ _ => 2
  | .failed _ => 3

/-- `Task::to_proto_result`. -/
def TaskRecord.to_proto_result (t : TaskRecord) : Option TaskResultProto :=
  match t.status with
  | .completed app_id deployer => some { app_id := app_id, deployer := deployer, error := "" }
  | .failed error => some { app_id := "", deployer := [], error := error }
  | _ => none

/-- `TappServiceImpl::get_task_status`: both branches return a normal
response (`Ok`), never an RPC error; the not-found branch echoes the
requested id with `success = false` and zeroed fields. -/
def get_task_status_rpc (tasks : List (String × TaskRecord)) (req_task_id : String) :
    Except GrpcStatus GetTaskStatusResponse :=
  match tasks.lookup req_task_id with
  | some task =>
    .ok { success := true, message := "Task found", task_id := task.id,
          status := task.status.protoCode, result := task.to_proto_result,
          created_at := task.created_at, updated_at := task.updated_at }
  | none =>
    .ok { success := false, message := "Task not found: " ++ req_task_id,
          task_id := req_task_id, status := 0, result := none,
          created_at := 0, updated_at := 0 }

/-! ## Key service (`src/app_key/mod.rs`) -/

structure EthKeyPair where
  private_key : List Nat
  public_key : List Nat
  eth_address : List Nat
deriving DecidableEq

/-- `AppKeyService::generate_eth_keypair`, with the k256 library calls as
parameters: `encoded_point` is `verifying_key.to_encoded_point(false)`
(the SEC1 uncompressed encoding, 65 bytes beginning with 0x04),
`keccak256` is the `sha3::Keccak256` digest (32 bytes), and
`private_key_bytes` is `signing_key.to_bytes()`.  The stored public key is
the full encoded point; the address is `hash[12..]`, i.e. the last 20
bytes of Keccak-256 over the encoding with its first byte removed. -/
def generate_eth_keypair (encoded_point : List Nat) (keccak256 : List Nat → List Nat)
    (private_key_bytes : List Nat) : EthKeyPair :=
  let public_key_bytes := encoded_point
  let public_key_xy := public_key_bytes.drop 1
  let public_key := public_key_bytes
  let hash := keccak256 public_key_xy
  let eth_address := hash.drop 12
  { private_key := private_key_bytes, public_key := public_key, eth_address := eth_address }

/-! ## Claim theorems -/

set_option maxRecDepth 10000 in
/-- Sanity vector: the embedded SHA-256 reproduces the digest that the
repository's unit test `test_sha256_hex` asserts for "hello world". -/
theorem sha256_hex_hello_world :
    sha256_hex (strBytes "hello world")
      = "b94d27b9934d3e08a52e52d7da7dabfac484efe37a5380ee9088f7ace2efcde9" := by
  decide

set_option maxRecDepth 10000 in
/-- Sanity vector: the embedded SHA-384 reproduces the FIPS 180-4 "abc"
digest. -/
theorem sha384_hex_abc :
    sha384_hex (strBytes "abc")
      = "cb00753f45a35e8bb5a03d699ac65007272c32ab0eded1631a8b605a43ff5bed8086072ba1e7cc2358baeca134c825a7" := by
  decide

set_option maxRecDepth 10000 in
/-- C1 (code bug evaluation): the spec, and the repository's own unit test
`test_validate_request` (which builds a request with `deployer: vec![0; 32]`
and asserts `is_ok`), require a 32-byte deployer, but `validate_request`
rejects every deployer whose length is not 64: the 32-byte deployer of the
code's own test request is rejected with "Deployer must be 64 bytes",
31 and 33 are likewise rejected, 64 is accepted, and the hex encoding of
an accepted 64-byte deployer has 128 characters, not the 64 characters the
spec's invariant states. -/
theorem validate_request_deployer_length_eval :
    (validate_request ⟨"version: 3", "test-nginx-app", [], List.replicate 32 0⟩
      = .error (.docker (.invalidComposeContent "Deployer must be 64 bytes"))) ∧
    (validate_request ⟨"version: 3", "test-nginx-app", [], List.replicate 31 0⟩
      = .error (.docker (.invalidComposeContent "Deployer must be 64 bytes"))) ∧
    (validate_request ⟨"version: 3", "test-nginx-app", [], List.replicate 33 0⟩
      = .error (.docker (.invalidComposeContent "Deployer must be 64 bytes"))) ∧
    (validate_request ⟨"version: 3", "test-nginx-app", [], List.replicate 64 0⟩ = .ok ()) ∧
    (hexEncode (List.replicate 64 0)).length = 128 := by
  decide

/-- C6: `get_evidence` report-data handling: empty input is replaced by 64
zero bytes; input shorter than 64 bytes is right-padded with zeros to 64
bytes, so the evidence for `b` equals the evidence for `b ++ zeros`; input
longer than 64 bytes fails with the `InvalidComposeContent` error. -/
theorem get_evidence_report_data_spec :
    ∀ (aa : List Nat → List Nat) (b : List Nat),
      (b = [] → get_evidence aa b = .ok (aa (List.replicate 64 0))) ∧
      (b.length < 64 →
        prepare_report_data b = .ok (b ++ List.replicate (64 - b.length) 0) ∧
        get_evidence aa b = get_evidence aa (b ++ List.replicate (64 - b.length) 0)) ∧
      (b.length > 64 →
        get_evidence aa b = .error (.docker (.invalidComposeContent
          ("Report data must be at most 64 bytes, got " ++ toString b.length)))) := by
  intro aa b
  refine ⟨?_, ?_, ?_⟩
  · intro hb; subst hb; rfl
  · intro hlen
    have hpad : prepare_report_data b = .ok (b ++ List.replicate (64 - b.length) 0) := by
      by_cases hb : b = []
      · subst hb; rfl
      · have h2 : ¬ (b.length > 64) := by omega
        simp [prepare_report_data, List.isEmpty_iff, hb, h2]
    have hlen64 : (b ++ List.replicate (64 - b.length) 0).length = 64 := by
      simp [List.length_append, List.length_replicate]; omega
    have hne : b ++ List.replicate (64 - b.length) 0 ≠ [] :=
      List.length_pos.mp (by rw [hlen64]; omega)
    have hpad2 : prepare_report_data (b ++ List.replicate (64 - b.length) 0)
        = .ok (b ++ List.replicate (64 - b.length) 0) := by
      simp [prepare_report_data, List.isEmpty_iff, hne, hlen64]
    refine ⟨hpad, ?_⟩
    unfold get_evidence
    rw [hpad, hpad2]
  · intro hlen
    have hb : b ≠ [] := by intro h; subst h; simp at hlen
    simp [get_evidence, prepare_report_data, List.isEmpty_iff, hb, hlen, Except.map]

/-- C6 witness: a 3-byte report and an identity driver instantiate the
padding law. -/
theorem get_evidence_report_data_witness :
    (([1, 2, 3] : List Nat).length < 64) ∧
    get_evidence (fun l => l) [1, 2, 3]
      = get_evidence (fun l => l) ([1, 2, 3] ++ List.replicate (64 - ([1, 2, 3] : List Nat).length) 0) :=
  ⟨by decide, ((get_evidence_report_data_spec (fun l => l) [1, 2, 3]).2.1 (by decide)).2⟩

/-- C7 (amended): stopping an application that is not in the tracked
`app_containers` map fails with `DockerError::ServiceNotFound` carrying the
app id (mapped to gRPC NotFound), not with
`TappError::InvalidParameter{field:"app_id"}`. -/
theorem stop_app_unknown_app_service_not_found :
    ∀ (m : DockerComposeManager) (app_id : String),
      m.app_containers.lookup app_id = none →
      stop_app m app_id = .error (.docker (.serviceNotFound app_id)) := by
  intro m app_id h
  unfold stop_app stop_compose
  rw [h]

/-- C7 counterexample: with no deployment recorded, `stop_app "ghost-app"`
returns `ServiceNotFound "ghost-app"`, which is not an
`InvalidParameter{field:"app_id"}` error as the claim states. -/
theorem stop_app_unknown_app_error_cex :
    stop_app ⟨[]⟩ "ghost-app" = .error (.docker (.serviceNotFound "ghost-app")) ∧
    isInvalidParamAppIdErr (stop_app ⟨[]⟩ "ghost-app") = false :=
  ⟨rfl, rfl⟩

/-- C7 witness: the amended statement at a concrete non-empty manager. -/
theorem stop_app_unknown_app_witness :
    stop_app ⟨[("other-app", ["c1"])]⟩ "ghost2"
      = .error (.docker (.serviceNotFound "ghost2")) :=
  stop_app_unknown_app_service_not_found ⟨[("other-app", ["c1"])]⟩ "ghost2" rfl

/-- C9: for every generated key pair, the stored public key is exactly the
65-byte SEC1 uncompressed encoding beginning with 0x04, and the Ethereum
address is the last 20 bytes of Keccak-256 over the 64-byte X‖Y form (the
encoding without its first byte). -/
theorem generate_eth_keypair_spec :
    ∀ (encoded_point : List Nat) (kec : List Nat → List Nat) (priv : List Nat),
      encoded_point.length = 65 →
      encoded_point.head? = some 4 →
      (kec (encoded_point.drop 1)).length = 32 →
      (generate_eth_keypair encoded_point kec priv).public_key = encoded_point ∧
      (generate_eth_keypair encoded_point kec priv).public_key.length = 65 ∧
      (generate_eth_keypair encoded_point kec priv).public_key.head? = some 4 ∧
      (generate_eth_keypair encoded_point kec priv).eth_address
        = (kec (encoded_point.drop 1)).drop ((kec (encoded_point.drop 1)).length - 20) ∧
      (generate_eth_keypair encoded_point kec priv).eth_address.length = 20 := by
  intro enc kec priv hlen hhead hklen
  unfold generate_eth_keypair
  refine ⟨rfl, hlen, hhead, ?_, ?_⟩
  · rw [hklen]
  · rw [List.length_drop, hklen]

/-- C9 witness: a concrete 65-byte encoded point and a 32-byte digest
function instantiate the key-pair shape facts. -/
theorem generate_eth_keypair_witness :
    (generate_eth_keypair (4 :: List.replicate 64 7) (fun _ => List.range 32) []).public_key
        = 4 :: List.replicate 64 7 ∧
    (generate_eth_keypair (4 :: List.replicate 64 7) (fun _ => List.range 32) []).public_key.length
        = 65 ∧
    (generate_eth_keypair (4 :: List.replicate 64 7) (fun _ => List.range 32) []).public_key.head?
        = some 4 ∧
    (generate_eth_keypair (4 :: List.replicate 64 7) (fun _ => List.range 32) []).eth_address
        = (List.range 32).drop ((List.range 32).length - 20) ∧
    (generate_eth_keypair (4 :: List.replicate 64 7) (fun _ => List.range 32) []).eth_address.length
        = 20 := by
  exact generate_eth_keypair_spec (4 :: List.replicate 64 7) (fun _ => List.range 32) []
    (by decide) (by decide) (by decide)

/-- C10: for a task id absent from the task table, the GetTaskStatus RPC
returns a normal (non-error) response with `success = false`, the request's
task id echoed back, status 0, no result, and both timestamps 0. -/
theorem get_task_status_unknown_task_response :
    ∀ (tasks : List (String × TaskRecord)) (tid : String),
      tasks.lookup tid = none →
      get_task_status_rpc tasks tid
        = .ok { success := false, message := "Task not found: " ++ tid, task_id := tid,
                status := 0, result := none, created_at := 0, updated_at := 0 } := by
  intro tasks tid h
  unfold get_task_status_rpc
  rw [h]

/-- C10 witness: a table holding an unrelated task and an unknown id. -/
theorem get_task_status_unknown_task_witness :
    get_task_status_rpc [("task-a", ⟨"task-a", .pending, 0, 0⟩)] "task-b"
      = .ok { success := false, message := "Task not found: task-b", task_id := "task-b",
              status := 0, result := none, created_at := 0, updated_at := 0 } := by
  exact get_task_status_unknown_task_response [("task-a", ⟨"task-a", .pending, 0, 0⟩)] "task-b" rfl

/-- Helper: the v4 branch of the origin gate, characterized
arithmetically. -/
theorem is_allowed_v4_iff (a b c d : Nat) :
    is_allowed_local_access (.v4 a b c d) = true ↔
      a = 127 ∨ (a = 172 ∧ 17 ≤ b ∧ b ≤ 31) := by
  have hexpr : is_allowed_local_access (.v4 a b c d) =
      ((a == 127) || ((a == 172) && (b == 17)) ||
        ((a == 172) && (decide (18 ≤ b) && decide (b ≤ 31)))) := by
    unfold is_allowed_local_access IpAddr.is_loopback
    cases hc1 : (a == 127) <;>
      cases hc2 : ((a == 172) && (b == 17)) <;>
        cases hc3 : ((a == 172) && (decide (18 ≤ b) && decide (b ≤ 31))) <;>
          simp [hc1, hc2, hc3]
  rw [hexpr]
  simp only [Bool.or_eq_true, Bool.and_eq_true, beq_iff_eq, decide_eq_true_eq]
  omega

/-- Helper: the v6 branch of the origin gate admits only `::1`. -/
theorem is_allowed_v6_iff (s1 s2 s3 s4 s5 s6 s7 s8 : Nat) :
    is_allowed_local_access (.v6 s1 s2 s3 s4 s5 s6 s7 s8) = true ↔
      (s1 = 0 ∧ s2 = 0 ∧ s3 = 0 ∧ s4 = 0 ∧ s5 = 0 ∧ s6 = 0 ∧ s7 = 0 ∧ s8 = 1) := by
  unfold is_allowed_local_access IpAddr.is_loopback
  cases hc : (s1 == 0 && s2 == 0 && s3 == 0 && s4 == 0 && s5 == 0 && s6 == 0 && s7 == 0 && s8 == 1) with
  | true => simp_all
  | false => simp_all; tauto

/-- Helper: `update_task_status` on a present key rewrites exactly that
entry. -/
theorem update_task_status_lookup_some
    (tasks : List (String × TaskRecord)) (task_id : String) (status : TaskStatus) (now : Int)
    (t : TaskRecord) (h : tasks.lookup task_id = some t) :
    (update_task_status tasks task_id status now).lookup task_id
      = some { t with status := status, updated_at := now } := by
  induction tasks with
  | nil => simp at h
  | cons p rest ih =>
    obtain ⟨k, v⟩ := p
    by_cases hk : k = task_id
    · have hbeq : (task_id == k) = true := by simp [hk]
      rw [List.lookup_cons] at h
      rw [hbeq] at h
      injection h with hv
      simp only [update_task_status, List.map_cons, if_pos hk]
      rw [List.lookup_cons, hbeq, hv]
    · have hbeq : (task_id == k) = false := by
        simp only [beq_eq_false_iff_ne, ne_eq]
        exact fun hc => hk hc.symm
      rw [List.lookup_cons] at h
      rw [hbeq] at h
      simp only [update_task_status, List.map_cons, if_neg hk]
      rw [List.lookup_cons, hbeq]
      exact ih h

/-- Helper: `update_task_status` on an absent key is the identity. -/
theorem update_task_status_lookup_none
    (tasks : List (String × TaskRecord)) (task_id : String) (status : TaskStatus) (now : Int)
    (h : tasks.lookup task_id = none) :
    update_task_status tasks task_id status now = tasks := by
  induction tasks with
  | nil => rfl
  | cons p rest ih =>
    obtain ⟨k, v⟩ := p
    rw [List.lookup_cons] at h
    cases hbeq : (task_id == k) with
    | true => rw [hbeq] at h; simp at h
    | false =>
      rw [hbeq] at h
      have hk : ¬ (k = task_id) := by
        intro hc
        subst hc
        simp at hbeq
      simp only [update_task_status, List.map_cons, if_neg hk]
      have := ih h
      simp only [update_task_status] at this
      rw [this]

/-- C4 (amended): `update_task_status` enforces no monotonicity: for a
task present in the table it unconditionally overwrites the stored status
(terminal states included) and refreshes `updated_at`; only calls for an
unknown task id leave the table unchanged. -/
theorem update_task_status_unconditional_overwrite :
    ∀ (tasks : List (String × TaskRecord)) (task_id : String) (status : TaskStatus) (now : Int),
      (∀ t, tasks.lookup task_id = some t →
        (update_task_status tasks task_id status now).lookup task_id
          = some { t with status := status, updated_at := now }) ∧
      (tasks.lookup task_id = none →
        update_task_status tasks task_id status now = tasks) :=
  fun tasks task_id status now =>
    ⟨fun t h => update_task_status_lookup_some tasks task_id status now t h,
     fun h => update_task_status_lookup_none tasks task_id status now h⟩

/-- C4 counterexample: a task in the terminal `Failed` state is *not*
protected by the state-update path: `mark_running` moves it back to
`Running`, so the stored status changes and the observed sequence is not a
prefix of Pending, Running, (Completed|Failed). -/
theorem update_task_status_overwrites_terminal_cex :
    ((mark_running [("t1", ⟨"t1", .failed "boom", 0, 0⟩)] "t1" 5).lookup "t1"
      = some ⟨"t1", .running, 0, 5⟩) ∧
    (((mark_running [("t1", ⟨"t1", .failed "boom", 0, 0⟩)] "t1" 5).lookup "t1").map
        TaskRecord.status ≠ some (.failed "boom")) := by
  decide

/-- C4 witness: overwriting a Failed task with Completed at a concrete
table. -/
theorem update_task_status_unconditional_overwrite_witness :
    (update_task_status [("t1", ⟨"t1", TaskStatus.failed "x", 0, 0⟩)] "t1"
        (.completed "a" []) 9).lookup "t1"
      = some ⟨"t1", .completed "a" [], 0, 9⟩ :=
  (update_task_status_unconditional_overwrite
      [("t1", ⟨"t1", TaskStatus.failed "x", 0, 0⟩)] "t1" (.completed "a" []) 9).1
    ⟨"t1", TaskStatus.failed "x", 0, 0⟩ rfl

/-- C2: the network-origin gate of `get_app_secret_key` admits exactly the
loopback addresses (IPv4 127.0.0.0/8 or IPv6 ::1), requests with no remote
socket address, and IPv4 addresses with first octet 172 and second octet
between 17 and 31 (172.17.0.0/16 through 172.31.0.0/16); in particular
172.17.0.5 and 127.0.0.1 are accepted while 172.32.0.5 and 8.8.8.8 are
rejected; and every rejected origin produces `PermissionDenied` before any
further processing (the nonce state is untouched). -/
theorem get_app_secret_key_origin_gate :
    (∀ remote : Option IpAddr, secret_key_origin_allowed remote = true ↔
      (remote = none ∨ ∃ ip, remote = some ip ∧
        ((∃ b c d, ip = .v4 127 b c d) ∨ ip = .v6 0 0 0 0 0 0 0 1 ∨
         (∃ a b c d, ip = .v4 a b c d ∧ a = 172 ∧ 17 ≤ b ∧ b ≤ 31)))) ∧
    (secret_key_origin_allowed (some (.v4 172 17 0 5)) = true) ∧
    (secret_key_origin_allowed (some (.v4 127 0 0 1)) = true) ∧
    (secret_key_origin_allowed (some (.v4 172 32 0 5)) = false) ∧
    (secret_key_origin_allowed (some (.v4 8 8 8 8)) = false) ∧
    (∀ measurements verify_sig app_keys W remote req st now,
      secret_key_origin_allowed remote = false →
      get_app_secret_key measurements verify_sig app_keys W remote req st now
        = (.error (.permissionDenied
            "GetAppSecretKey can only be called from localhost or same-host Docker containers"),
           st)) := by
  refine ⟨?_, by decide, by decide, by decide, by decide, ?_⟩
  · intro remote
    rcases remote with _ | ip
    · simp [secret_key_origin_allowed]
    · constructor
      · intro h
        refine Or.inr ⟨ip, rfl, ?_⟩
        rcases ip with ⟨a, b, c, d⟩ | ⟨s1, s2, s3, s4, s5, s6, s7, s8⟩
        · rcases (is_allowed_v4_iff a b c d).mp h with h127 | ⟨h172, h17, h31⟩
          · subst h127; exact Or.inl ⟨b, c, d, rfl⟩
          · exact Or.inr (Or.inr ⟨a, b, c, d, rfl, h172, h17, h31⟩)
        · obtain ⟨h1, h2, h3, h4, h5, h6, h7, h8⟩ :=
            (is_allowed_v6_iff s1 s2 s3 s4 s5 s6 s7 s8).mp h
          subst h1; subst h2; subst h3; subst h4; subst h5; subst h6; subst h7; subst h8
          exact Or.inr (Or.inl rfl)
      · rintro (hnone | ⟨ip', hip, hcase⟩)
        · exact absurd hnone (by simp)
        · have hip2 : ip = ip' := Option.some.inj hip
          subst hip2
          rcases hcase with ⟨b', c', d', heq⟩ | heq | ⟨a', b', c', d', heq, ha', h17, h31⟩
          · subst heq
            exact (is_allowed_v4_iff 127 b' c' d').mpr (Or.inl rfl)
          · subst heq
            decide
          · subst heq
            exact (is_allowed_v4_iff a' b' c' d').mpr (Or.inr ⟨ha', h17, h31⟩)
  · intro measurements verify_sig app_keys W remote req st now h
    simp [get_app_secret_key, h]

/-- C2 witness: the theorem applied at the rejected caller 8.8.8.8. -/
theorem get_app_secret_key_origin_gate_witness :
    get_app_secret_key [] (fun _ _ _ => .ok true) (fun _ => .error (.notFound "x")) 300
        (some (.v4 8 8 8 8)) ⟨"a", "n", 0, []⟩ ⟨[]⟩ 0
      = (.error (.permissionDenied
          "GetAppSecretKey can only be called from localhost or same-host Docker containers"),
         (⟨[]⟩ : NonceState)) :=
  get_app_secret_key_origin_gate.2.2.2.2.2 [] (fun _ _ _ => .ok true)
    (fun _ => .error (.notFound "x")) 300 (some (.v4 8 8 8 8)) ⟨"a", "n", 0, []⟩ ⟨[]⟩ 0
    (by decide)

/-- C3 (amended): `verify_and_consume` fails whenever the drift between
the call's current time and the submitted timestamp exceeds the validity
window; a fresh nonce inside the window succeeds and is recorded with
expiry `t + W`; and after a successful consumption of a nonce, every
second call with that nonce fails — with the replay error whenever the
second call's own timestamp passes the drift check, and with the
timestamp-window error otherwise. -/
theorem verify_and_consume_window_replay_spec :
    ∀ (W : Int) (st : NonceState) (n : String) (t now : Int),
      ((((now - t).natAbs : Int) > W →
        verify_and_consume W st n t now
          = (.error ("Timestamp outside validity window. Diff: " ++
              toString ((now - t).natAbs : Int) ++ "s, Max: " ++ toString W ++ "s"), st))) ∧
      ((((now - t).natAbs : Int) ≤ W → st.contains n = false →
        verify_and_consume W st n t now = (.ok (), st.insert n (t + W)))) ∧
      (∀ st' t' now', verify_and_consume W st n t now = (.ok (), st') →
        (verify_and_consume W st' n t' now').1.isOk = false ∧
        ((((now' - t').natAbs : Int) ≤ W →
          (verify_and_consume W st' n t' now').1
            = .error "Nonce already used (replay attack detected)"))) := by
  intro W st n t now
  refine ⟨?_, ?_, ?_⟩
  · intro h
    rw [Int.natCast_natAbs] at h
    simp [verify_and_consume, h]
  · intro h1 h2
    rw [Int.natCast_natAbs] at h1
    have hng : ¬ (W < |now - t|) := not_lt.mpr h1
    simp [verify_and_consume, hng, h2]
  · intro st' t' now' hok
    have hst' : st' = st.insert n (t + W) := by
      by_cases h1 : W < |now - t|
      · simp [verify_and_consume, h1] at hok
      · by_cases h2 : st.contains n
        · simp [verify_and_consume, h1, h2] at hok
        · simp [verify_and_consume, h1, h2] at hok
          exact hok.symm
    have hc : st'.contains n = true := by
      rw [hst']
      simp [NonceState.contains, NonceState.insert, List.lookup_cons]
    constructor
    · by_cases hd : W < |now' - t'|
      · simp [verify_and_consume, hd, Except.isOk, Except.toBool]
      · simp [verify_and_consume, hd, hc, Except.isOk, Except.toBool]
    · intro hle
      rw [Int.natCast_natAbs] at hle
      have hd : ¬ (W < |now' - t'|) := not_lt.mpr hle
      simp [verify_and_consume, hd, hc]

/-- C3 counterexample: with window 300, nonce "n1" consumed at t = 0,
now = 0, a second call at t' = 1 (so |t' − t| = 1 < 300) performed when
now' = 500 does fail, but with the timestamp-window error, not the replay
error the claim demands. -/
theorem verify_and_consume_second_call_error_kind_cex :
    ((verify_and_consume 300 ⟨[]⟩ "n1" 0 0).1 = .ok ()) ∧
    ((((1 : Int) - 0).natAbs : Int) < 300) ∧
    ((verify_and_consume 300 (verify_and_consume 300 ⟨[]⟩ "n1" 0 0).2 "n1" 1 500).1.isOk
      = false) ∧
    ((verify_and_consume 300 (verify_and_consume 300 ⟨[]⟩ "n1" 0 0).2 "n1" 1 500).1
      ≠ .error "Nonce already used (replay attack detected)") := by
  decide

/-- C3 witness: the amended statement instantiated with window 300: a
fresh in-window nonce succeeds recording expiry 310, and an in-window
second call fails with the replay error. -/
theorem verify_and_consume_window_replay_witness :
    (verify_and_consume 300 ⟨[]⟩ "n2" 10 10 = (.ok (), NonceState.insert ⟨[]⟩ "n2" 310)) ∧
    ((verify_and_consume 300 (NonceState.insert ⟨[]⟩ "n2" 310) "n2" 20 40).1
      = .error "Nonce already used (replay attack detected)") := by
  refine ⟨?_, ?_⟩
  · exact (verify_and_consume_window_replay_spec 300 ⟨[]⟩ "n2" 10 10).2.1 (by decide) (by decide)
  · exact ((verify_and_consume_window_replay_spec 300 ⟨[]⟩ "n2" 10 10).2.2
      (NonceState.insert ⟨[]⟩ "n2" 310) 20 40
      ((verify_and_consume_window_replay_spec 300 ⟨[]⟩ "n2" 10 10).2.1 (by decide) (by decide))).2
      (by decide)

/-- Helper: when a measurement for the requested app already exists, the
background worker `_start_app` only marks the task Failed and touches no
other state. -/
theorem start_app_background_duplicate
    (normalize : String → Except DockerError String)
    (deploy_res extend_res : Except TappError Unit)
    (req : StartAppRequest) (task_id : String) (st : BootState) (now : Int)
    (hdup : (st.app_measurements.lookup req.app_id).isSome = true) :
    _start_app normalize deploy_res extend_res req task_id st now
      = { st with tasks := mark_failed st.tasks task_id (TappError.toMessage (.invalidParameter "app_id" ("Application " ++ req.app_id ++ " already exists"))) now } := by
  simp only [_start_app]
  rw [if_pos hdup]

/-- C8 counterexample: with a measurement for "app1" already recorded, the
public `start_app` does *not* fail fast: it returns a successful response
and a task has been allocated in the task table. -/
theorem start_app_duplicate_allocates_task_cex :
    ((start_app ⟨"version: 3", "app1", [], List.replicate 64 0⟩
        ⟨[("app1", ⟨"app1", "h1", "h2", "00", 0⟩)], [], [], []⟩ "task-1" 0).1
      = .ok ⟨true, "Task created successfully. Use task_id to check status.", "task-1", 0⟩) ∧
    (((start_app ⟨"version: 3", "app1", [], List.replicate 64 0⟩
        ⟨[("app1", ⟨"app1", "h1", "h2", "00", 0⟩)], [], [], []⟩ "task-1" 0).2.tasks.lookup
        "task-1").isSome = true) := by
  decide

/-- C8 (amended): for a valid request whose AppId already has a recorded
measurement, the public `start_app` still succeeds and allocates a task
(the duplicate check does not precede task allocation); the duplicate is
detected by the background worker, which marks that task Failed with the
"already exists" message; and the existing measurement map is left exactly
unchanged (no overwrite). -/
theorem start_app_duplicate_fails_in_background :
    ∀ (normalize : String → Except DockerError String)
      (deploy_res extend_res : Except TappError Unit)
      (req : StartAppRequest) (st : BootState) (task_id : String) (now : Int),
      validate_request req = .ok () →
      (st.app_measurements.lookup req.app_id).isSome = true →
      ((start_app req st task_id now).1
          = .ok { success := true,
                  message := "Task created successfully. Use task_id to check status.",
                  task_id := task_id, timestamp := now }) ∧
      (((start_app req st task_id now).2.tasks.lookup task_id).isSome = true) ∧
      ((_start_app normalize deploy_res extend_res req task_id
          (start_app req st task_id now).2 now).app_measurements = st.app_measurements) ∧
      (((_start_app normalize deploy_res extend_res req task_id
          (start_app req st task_id now).2 now).tasks.lookup task_id).map TaskRecord.status
        = some (.failed (TappError.toMessage (.invalidParameter "app_id"
            ("Application " ++ req.app_id ++ " already exists"))))) := by
  intro normalize deploy_res extend_res req st task_id now hval hdup
  have h1 : start_app req st task_id now
      = (.ok { success := true,
               message := "Task created successfully. Use task_id to check status.",
               task_id := task_id, timestamp := now },
         { st with tasks := mark_running ((task_id, ⟨task_id, .pending, now, now⟩) :: st.tasks) task_id now }) := by
    simp [start_app, hval]
  have hlook : ((task_id, (⟨task_id, .pending, now, now⟩ : TaskRecord)) :: st.tasks).lookup
      task_id = some ⟨task_id, .pending, now, now⟩ := by
    simp [List.lookup_cons]
  have h2 := update_task_status_lookup_some
    ((task_id, (⟨task_id, .pending, now, now⟩ : TaskRecord)) :: st.tasks) task_id .running now
    ⟨task_id, .pending, now, now⟩ hlook
  have hbg := start_app_background_duplicate normalize deploy_res extend_res req task_id
    { st with tasks := mark_running ((task_id, ⟨task_id, .pending, now, now⟩) :: st.tasks) task_id now } now hdup
  have h3 := update_task_status_lookup_some
    (mark_running ((task_id, (⟨task_id, .pending, now, now⟩ : TaskRecord)) :: st.tasks)
      task_id now) task_id
    (.failed (TappError.toMessage (.invalidParameter "app_id"
      ("Application " ++ req.app_id ++ " already exists")))) now
    ⟨task_id, .running, now, now⟩ h2
  have h2' : (mark_running ((task_id, (⟨task_id, .pending, now, now⟩ : TaskRecord)) :: st.tasks) task_id now).lookup task_id = some (⟨task_id, .running, now, now⟩ : TaskRecord) := h2
  have h3' : (mark_failed (mark_running ((task_id, (⟨task_id, .pending, now, now⟩ : TaskRecord)) :: st.tasks) task_id now) task_id (TappError.toMessage (.invalidParameter "app_id" ("Application " ++ req.app_id ++ " already exists"))) now).lookup task_id = some (⟨task_id, .failed (TappError.toMessage (.invalidParameter "app_id" ("Application " ++ req.app_id ++ " already exists"))), now, now⟩ : TaskRecord) := h3
  refine ⟨by rw [h1], ?_, ?_, ?_⟩
  · rw [h1]
    show ((mark_running ((task_id, ⟨task_id, .pending, now, now⟩) :: st.tasks) task_id now).lookup task_id).isSome = true
    rw [h2']
    rfl
  · rw [h1, hbg]
  · rw [h1, hbg]
    show ((mark_failed (mark_running ((task_id, ⟨task_id, .pending, now, now⟩) :: st.tasks) task_id now) task_id (TappError.toMessage (.invalidParameter "app_id" ("Application " ++ req.app_id ++ " already exists"))) now).lookup task_id).map TaskRecord.status = some (.failed (TappError.toMessage (.invalidParameter "app_id" ("Application " ++ req.app_id ++ " already exists"))))
    rw [h3']
    rfl

/-- C8 witness: the amended statement at a concrete duplicate request. -/
theorem start_app_duplicate_fails_in_background_witness :
    ((start_app ⟨"version: 3", "app1", [], List.replicate 64 0⟩
        ⟨[("app1", ⟨"app1", "h1", "h2", "00", 0⟩)], [], [], []⟩ "task-1" 0).1
      = .ok { success := true,
              message := "Task created successfully. Use task_id to check status.",
              task_id := "task-1", timestamp := 0 }) ∧
    (((start_app ⟨"version: 3", "app1", [], List.replicate 64 0⟩
        ⟨[("app1", ⟨"app1", "h1", "h2", "00", 0⟩)], [], [], []⟩ "task-1" 0).2.tasks.lookup
        "task-1").isSome = true) ∧
    ((_start_app (fun s => .ok s) (.ok ()) (.ok ())
        ⟨"version: 3", "app1", [], List.replicate 64 0⟩ "task-1"
        (start_app ⟨"version: 3", "app1", [], List.replicate 64 0⟩
          ⟨[("app1", ⟨"app1", "h1", "h2", "00", 0⟩)], [], [], []⟩ "task-1" 0).2
        0).app_measurements = [("app1", ⟨"app1", "h1", "h2", "00", 0⟩)]) ∧
    (((_start_app (fun s => .ok s) (.ok ()) (.ok ())
        ⟨"version: 3", "app1", [], List.replicate 64 0⟩ "task-1"
        (start_app ⟨"version: 3", "app1", [], List.replicate 64 0⟩
          ⟨[("app1", ⟨"app1", "h1", "h2", "00", 0⟩)], [], [], []⟩ "task-1" 0).2
        0).tasks.lookup "task-1").map TaskRecord.status
      = some (.failed (TappError.toMessage (.invalidParameter "app_id"
          ("Application app1 already exists"))))) := by
  exact start_app_duplicate_fails_in_background (fun s => .ok s) (.ok ()) (.ok ())
    ⟨"version: 3", "app1", [], List.replicate 64 0⟩
    ⟨[("app1", ⟨"app1", "h1", "h2", "00", 0⟩)], [], [], []⟩ "task-1" 0
    (by decide) (by decide)

/-- Helper: `charsLe` is total. -/
theorem charsLe_total : ∀ (x y : List Char), charsLe x y = true ∨ charsLe y x = true := by
  intro x
  induction x with
  | nil => intro y; left; rfl
  | cons a as ih =>
    intro y
    cases y with
    | nil => right; rfl
    | cons b bs =>
      by_cases hab : a = b
      · subst hab
        rcases ih bs with h | h
        · left; simpa [charsLe] using h
        · right; simpa [charsLe] using h
      · have hba : ¬ b = a := fun hc => hab hc.symm
        rcases lt_or_gt_of_ne hab with hlt | hgt
        · left; simp [charsLe, hab, hlt]
        · right; simp [charsLe, hba, hgt]

/-- Helper: `charsLe` is transitive. -/
theorem charsLe_trans :
    ∀ (x y z : List Char), charsLe x y = true → charsLe y z = true → charsLe x z = true := by
  intro x
  induction x with
  | nil => intro y z _ _; rfl
  | cons a as ih =>
    intro y z hxy hyz
    cases y with
    | nil => simp [charsLe] at hxy
    | cons b bs =>
      cases z with
      | nil => simp [charsLe] at hyz
      | cons c cs =>
        by_cases hab : a = b <;> by_cases hbc : b = c
        · subst hab; subst hbc
          simp only [charsLe, if_pos rfl] at hxy hyz ⊢
          exact ih bs cs hxy hyz
        · subst hab
          simp only [charsLe, if_pos rfl] at hxy
          simp [charsLe, hbc] at hyz ⊢
          exact hyz
        · subst hbc
          simp [charsLe, hab] at hxy
          simp only [charsLe, if_pos rfl] at hyz
          simp [charsLe, hab, hxy]
        · simp [charsLe, hab] at hxy
          simp [charsLe, hbc] at hyz
          have hac : a < c := lt_trans hxy hyz
          simp [charsLe, ne_of_lt hac, hac]

/-- Helper: `charsLe` is antisymmetric. -/
theorem charsLe_antisymm :
    ∀ (x y : List Char), charsLe x y = true → charsLe y x = true → x = y := by
  intro x
  induction x with
  | nil =>
    intro y hxy hyx
    cases y with
    | nil => rfl
    | cons b bs => simp [charsLe] at hyx
  | cons a as ih =>
    intro y hxy hyx
    cases y with
    | nil => simp [charsLe] at hxy
    | cons b bs =>
      by_cases hab : a = b
      · subst hab
        simp only [charsLe, if_pos rfl] at hxy hyx
        rw [ih bs hxy hyx]
      · have hba : ¬ b = a := fun hc => hab hc.symm
        simp [charsLe, hab] at hxy
        simp [charsLe, hba] at hyx
        exact absurd hyx (lt_asymm hxy)

/-- Helper: the sort key order is total. -/
theorem pathLeR_total : ∀ a b : MountFile, MountFile.pathLeR a b ∨ MountFile.pathLeR b a :=
  fun a b => charsLe_total a.source_path.toList b.source_path.toList

/-- Helper: the sort key order is transitive. -/
theorem pathLeR_trans :
    ∀ a b c : MountFile, MountFile.pathLeR a b → MountFile.pathLeR b c →
      MountFile.pathLeR a c :=
  fun a b c => charsLe_trans a.source_path.toList b.source_path.toList c.source_path.toList

/-- Helper: two files comparing below each other share their source path. -/
theorem pathLeR_antisymm_path (a b : MountFile)
    (h1 : MountFile.pathLeR a b) (h2 : MountFile.pathLeR b a) :
    a.source_path = b.source_path :=
  String.ext (charsLe_antisymm a.source_path.toList b.source_path.toList h1 h2)

/-- Helper: two permuted lists that are both sorted by source path and
whose source paths are pairwise distinct are equal. -/
theorem sorted_nodup_perm_eq :
    ∀ (l₁ l₂ : List MountFile), l₁.Perm l₂ →
      (l₁.map MountFile.source_path).Nodup →
      l₁.Pairwise MountFile.pathLeR → l₂.Pairwise MountFile.pathLeR → l₁ = l₂ := by
  intro l₁
  induction l₁ with
  | nil =>
    intro l₂ hp _ _ _
    exact (hp.symm.eq_nil).symm
  | cons a t₁ ih =>
    intro l₂ hp hnd hs₁ hs₂
    cases l₂ with
    | nil => exact absurd hp.eq_nil (by simp)
    | cons b t₂ =>
      have hab : a = b := by
        by_contra hne
        have hbmem : b ∈ a :: t₁ := hp.mem_iff.mpr (List.mem_cons_self b t₂)
        have hamem : a ∈ b :: t₂ := hp.mem_iff.mp (List.mem_cons_self a t₁)
        have hb_t₁ : b ∈ t₁ := by
          rcases List.mem_cons.mp hbmem with h | h
          · exact absurd h.symm hne
          · exact h
        have ha_t₂ : a ∈ t₂ := by
          rcases List.mem_cons.mp hamem with h | h
          · exact absurd h hne
          · exact h
        have h1 : MountFile.pathLeR a b := (List.pairwise_cons.mp hs₁).1 b hb_t₁
        have h2 : MountFile.pathLeR b a := (List.pairwise_cons.mp hs₂).1 a ha_t₂
        have hpath : a.source_path = b.source_path := pathLeR_antisymm_path a b h1 h2
        have hmem : a.source_path ∈ t₁.map MountFile.source_path := by
          rw [hpath]
          exact List.mem_map_of_mem MountFile.source_path hb_t₁
        simp only [List.map_cons] at hnd
        exact (List.nodup_cons.mp hnd).1 hmem
      subst hab
      have hp' : t₁.Perm t₂ := hp.cons_inv
      have hnd' : (t₁.map MountFile.source_path).Nodup := by
        simp only [List.map_cons] at hnd
        exact (List.nodup_cons.mp hnd).2
      rw [ih t₂ hp' hnd' hs₁.of_cons hs₂.of_cons]

/-- Helper: the stable sort of two permuted lists with pairwise-distinct
source paths is the same list. -/
theorem insertionSort_eq_of_perm_nodup (l l' : List MountFile)
    (hp : l.Perm l') (hnd : (l.map MountFile.source_path).Nodup) :
    List.insertionSort MountFile.pathLeR l = List.insertionSort MountFile.pathLeR l' := by
  haveI : IsTotal MountFile MountFile.pathLeR := ⟨pathLeR_total⟩
  haveI : IsTrans MountFile MountFile.pathLeR := ⟨pathLeR_trans⟩
  apply sorted_nodup_perm_eq
  · exact (List.perm_insertionSort MountFile.pathLeR l).trans
      (hp.trans (List.perm_insertionSort MountFile.pathLeR l').symm)
  · exact (((List.perm_insertionSort MountFile.pathLeR l).map
      MountFile.source_path).nodup_iff).mpr hnd
  · exact List.sorted_insertionSort MountFile.pathLeR l
  · exact List.sorted_insertionSort MountFile.pathLeR l'

/-- C5 (amended): for every mount-file list whose `source_path`s are
pairwise distinct, every permutation of the list yields the same Merkle
root (first component of `calculate_mount_files_hash`); with duplicated
source paths the stable sort preserves the input order of the equal-path
entries and permutation invariance fails. -/
theorem mount_files_hash_perm_invariant :
    ∀ (algo : HashAlgorithm) (l l' : List MountFile),
      l.Perm l' → (l.map MountFile.source_path).Nodup →
      (calculate_mount_files_hash algo l).1 = (calculate_mount_files_hash algo l').1 := by
  intro algo l l' hp hnd
  by_cases hl : l = []
  · subst hl
    rw [hp.symm.eq_nil]
  · have hl' : l' ≠ [] := fun h => hl (by subst h; exact hp.eq_nil)
    have hsort := insertionSort_eq_of_perm_nodup l l' hp hnd
    simp only [calculate_mount_files_hash, List.isEmpty_iff, hl, hl', if_neg, hsort]

set_option maxRecDepth 10000 in
/-- C5 counterexample: two mount files sharing the source path "a" but
with different contents; swapping them is a permutation, yet the Merkle
root of `calculate_mount_files_hash` (with the default SHA-384) differs,
because the stable sort preserves the original order of equal keys. -/
theorem mount_files_hash_permutation_cex :
    ([(⟨"a", [0], "0644"⟩ : MountFile), ⟨"a", [1], "0644"⟩].Perm
      [(⟨"a", [1], "0644"⟩ : MountFile), ⟨"a", [0], "0644"⟩]) ∧
    ((calculate_mount_files_hash .sha384Alg [⟨"a", [0], "0644"⟩, ⟨"a", [1], "0644"⟩]).1
      ≠ (calculate_mount_files_hash .sha384Alg [⟨"a", [1], "0644"⟩, ⟨"a", [0], "0644"⟩]).1) := by
  constructor
  · exact List.Perm.swap _ _ _
  · decide

/-- C5 witness: two distinct-path files, swapped, give the same root. -/
theorem mount_files_hash_perm_invariant_witness :
    ([(⟨"a", [0], "0644"⟩ : MountFile), ⟨"b", [1], "0644"⟩].Perm
      [(⟨"b", [1], "0644"⟩ : MountFile), ⟨"a", [0], "0644"⟩]) ∧
    (([(⟨"a", [0], "0644"⟩ : MountFile), ⟨"b", [1], "0644"⟩].map MountFile.source_path).Nodup) ∧
    ((calculate_mount_files_hash .sha384Alg [⟨"a", [0], "0644"⟩, ⟨"b", [1], "0644"⟩]).1
      = (calculate_mount_files_hash .sha384Alg [⟨"b", [1], "0644"⟩, ⟨"a", [0], "0644"⟩]).1) := by
  refine ⟨List.Perm.swap _ _ _, by decide, ?_⟩
  exact mount_files_hash_perm_invariant .sha384Alg
    [⟨"a", [0], "0644"⟩, ⟨"b", [1], "0644"⟩] [⟨"b", [1], "0644"⟩, ⟨"a", [0], "0644"⟩]
    (List.Perm.swap _ _ _) (by decide)
